import Mathlib

/-!
Shallow embedding of the core of `src/budget.js`: the transaction store, the
category mapper, the balance engine (`calculateClosingBalance` and the
opening-balance portion of `updateBalanceSummary`), the import reconciler
(`parseAndValidateCSV` / `importCSV`) and the duplicate checks.

Modelling conventions:
  - JavaScript numbers are exact rationals (`ℚ`); `NaN` produced by
    `parseInt`/`parseFloat` is `Option.none`.
  - JS `Map` is an association list in insertion order, JS `Set` a plain
    list in insertion order (`mapSet` / `setAdd` mirror `set` / `add`).
  - A possibly-absent object field (`year` on old transactions,
    `checkDetails`, `color`) is an `Option`.
  - Time-based `id` fields (`Date.now() + Math.random()`) are not modelled:
    no behaviour proved here reads them.
-/

namespace Budget

/-- The whitespace characters `String.prototype.trim` removes (the ASCII ones,
which are the ones occurring in this data). -/
def isJsWhitespace (c : Char) : Bool :=
  c == ' ' || c == '\t' || c == '\n' || c == '\r' || c == '\x0b' || c == '\x0c'

/-- Model of JS `String.prototype.trim`. -/
def jsTrim (s : String) : String :=
  ⟨(((s.toList.dropWhile isJsWhitespace).reverse).dropWhile isJsWhitespace).reverse⟩

/-- Model of JS `String.prototype.split` with a one-character separator:
`"a,".split(',') = ["a", ""]`, `"".split(',') = [""]`. -/
def jsSplitAux (sep : Char) : List Char → List Char → List (List Char)
  | [], cur => [cur]
  | c :: rest, cur =>
    if c == sep then cur :: jsSplitAux sep rest []
    else jsSplitAux sep rest (cur ++ [c])

/-- Model of JS `String.prototype.split` on a string. -/
def jsSplit (sep : Char) (s : String) : List String :=
  (jsSplitAux sep s.toList []).map fun l => ⟨l⟩

/-- Model of JS `String.prototype.includes` on character lists. -/
def listIncludes (sub : List Char) : List Char → Bool
  | [] => sub.isEmpty
  | c :: rest => List.isPrefixOf sub (c :: rest) || listIncludes sub rest

/-- Model of JS `String.prototype.includes`. -/
def strIncludes (s sub : String) : Bool :=
  listIncludes sub.toList s.toList

/-- Decimal value of a digit list (used by the `parseInt`/`parseFloat` models). -/
def digitsVal (l : List Char) : Nat :=
  l.foldl (fun acc c => acc * 10 + (c.toNat - 48)) 0

/-- Model of JS `parseInt` in base 10: leading whitespace skipped, an optional
sign, then the longest digit prefix; `none` models `NaN`. -/
def parseIntJS (s : String) : Option Int :=
  let t := (jsTrim s).toList
  let sign : Int := match t with
    | '-' :: _ => -1
    | _ => 1
  let body := match t with
    | '-' :: r => r
    | '+' :: r => r
    | r => r
  let digits := body.takeWhile Char.isDigit
  if digits.isEmpty then none
  else some (sign * (digitsVal digits : Int))

/-- Model of JS `parseFloat`: optional sign, digit prefix, optional `.` and a
fraction; at least one digit is required (`parseFloat(".")` is `NaN`). The
exponent form does not occur in this data. `none` models `NaN`. -/
def parseFloatJS (s : String) : Option ℚ :=
  let t := (jsTrim s).toList
  let sign : ℚ := match t with
    | '-' :: _ => -1
    | _ => 1
  let body := match t with
    | '-' :: r => r
    | '+' :: r => r
    | r => r
  let intDigits := body.takeWhile Char.isDigit
  let afterInt := body.drop intDigits.length
  let fracDigits := match afterInt with
    | '.' :: r => r.takeWhile Char.isDigit
    | _ => []
  if intDigits.isEmpty && fracDigits.isEmpty then none
  else some (sign * ((digitsVal intDigits : ℚ) +
    (digitsVal fracDigits : ℚ) / ((10 : ℚ) ^ fracDigits.length)))

/-- JS `Map.prototype.set`: overwrite the value at an existing key in place,
or append the new entry at the end. -/
def mapSet {α : Type} (l : List (String × α)) (k : String) (v : α) :
    List (String × α) :=
  match l with
  | [] => [(k, v)]
  | (k0, v0) :: rest =>
    if k0 == k then (k, v) :: rest else (k0, v0) :: mapSet rest k v

/-- JS `Set.prototype.add`: append when absent, keep insertion order. -/
def setAdd (l : List String) (x : String) : List String :=
  if l.contains x then l else l ++ [x]

/-- A value of the mapping table (`this.mappings`): `{category,
includeInMonthlyExpenses}`. A falsy `category` (the empty string here) falls
back to the uncategorized sentinel at lookup time. -/
structure MappingEntry where
  category : String
  includeInMonthlyExpenses : Bool
deriving Repr, DecidableEq

/-- A transaction as stored in `this.transactions`.  The `id` field
(`Date.now() + Math.random()`) is left out: nothing proved here reads it.
`year` is `none` for old records saved before the field existed. -/
structure Transaction where
  item : String
  amount : ℚ
  type : String
  category : String
  month : Int
  year : Option Int
  note : String
  paymentMethod : String
  checkDetails : Option (String × String)
  color : Option String
deriving Repr, DecidableEq

/-- An imported check item as stored in `this.importedCheckItems` (`id`
left out as for `Transaction`). -/
structure CheckItem where
  item : String
  amount : ℚ
  month : Int
  year : Option Int
  note : String
  checkNumber : String
  payeeName : String
  color : String
deriving Repr, DecidableEq

/-- The aggregate session state: the fields of the `BudgetSystem` object that
the claims touch. -/
structure BudgetState where
  transactions : List Transaction
  importedCheckItems : List CheckItem
  mappings : List (String × MappingEntry)
  openingBalances : List (String × ℚ)
  manualOpeningBalances : List String
  currentYear : Int
deriving Repr, DecidableEq

/-- `item.trim().replace(/["״]/g, '')` — the normalization used by
`getCategoryForItem` (budget.js:663). -/
def stripQuotesBasic (s : String) : String :=
  ⟨s.toList.filter fun c => !(c == '"' || c == '״')⟩

/-- `values[2].trim().replace(/[""״׳]/g, '')` — the CSV item
normalization (budget.js:3292). -/
def stripQuotesAll (s : String) : String :=
  ⟨s.toList.filter fun c => !(c == '"' || c == '״' || c == '׳')⟩

/-- `h.replace(/"/g, '')` — the header-cell normalization (budget.js:3257). -/
def stripDoubleQuotes (s : String) : String :=
  ⟨s.toList.filter fun c => !(c == '"')⟩

/-- `getCategoryForItem` (budget.js:661-689): deposit special case, national
insurance special case, exact mapping lookup, then first partial match in
insertion order, else the uncategorized sentinel. -/
def getCategoryForItem (mappings : List (String × MappingEntry))
    (item : String) : String :=
  let normalizedItem := stripQuotesBasic (jsTrim item)
  if strIncludes normalizedItem "פקדון" || strIncludes normalizedItem "פיקדון" then
    "הפקדה לחסכון בבנק"
  else if normalizedItem == "ביטוח לאומי" || normalizedItem == "ביטוח לאומי ג"
      || String.isPrefixOf "ביטוח לאומי ג" normalizedItem then
    "ביטוח לאומי"
  else
    match List.lookup normalizedItem mappings with
    | some m => if m.category == "" then "לא מקוטלג" else m.category
    | none =>
      match mappings.find? fun p =>
          strIncludes normalizedItem p.1 || strIncludes p.1 normalizedItem with
      | some p => if p.2.category == "" then "לא מקוטלג" else p.2.category
      | none => "לא מקוטלג"

/-- `isDuplicateTransaction` (budget.js:2788-2796): some existing transaction
agrees on item, month, year and type, with amounts within `0.01`. -/
def isDuplicateTransaction (transactions : List Transaction)
    (newTransaction : Transaction) : Bool :=
  transactions.any fun existing =>
    existing.item == newTransaction.item &&
    existing.month == newTransaction.month &&
    existing.year == newTransaction.year &&
    existing.type == newTransaction.type &&
    decide (|existing.amount - newTransaction.amount| < 1 / 100)

/-- `isDuplicateCheckItem` (budget.js:2799-2806): as the transaction check but
without the `type` comparison. -/
def isDuplicateCheckItem (importedCheckItems : List CheckItem)
    (newCheckItem : CheckItem) : Bool :=
  importedCheckItems.any fun existing =>
    existing.item == newCheckItem.item &&
    existing.month == newCheckItem.month &&
    existing.year == newCheckItem.year &&
    decide (|existing.amount - newCheckItem.amount| < 1 / 100)

/-- The transaction merge loop of `importCSV` (budget.js:2853-2862): returns
the grown store together with `(addedCount, skippedCount)`. -/
def mergeTransactions : List Transaction → List Transaction →
    List Transaction × Nat × Nat
  | store, [] => (store, 0, 0)
  | store, t :: ts =>
    if isDuplicateTransaction store t then
      let r := mergeTransactions store ts
      (r.1, r.2.1, r.2.2 + 1)
    else
      let r := mergeTransactions (store ++ [t]) ts
      (r.1, r.2.1 + 1, r.2.2)

/-- The check-item merge loop of `importCSV` (budget.js:2865-2881): the grown
store together with `(checkItemsCount, skippedCheckItems)`. -/
def mergeCheckItems : List CheckItem → List CheckItem →
    List CheckItem × Nat × Nat
  | store, [] => (store, 0, 0)
  | store, c :: cs =>
    if isDuplicateCheckItem store c then
      let r := mergeCheckItems store cs
      (r.1, r.2.1, r.2.2 + 1)
    else
      let r := mergeCheckItems (store ++ [c]) cs
      (r.1, r.2.1 + 1, r.2.2)

/-- `parseCSVLine` (budget.js:3437-3467): split a CSV line on commas outside
quotes, a doubled quote inside a quoted span standing for one quote. The
arguments mirror the loop state `(remaining input, inQuotes, current, values)`. -/
def parseCSVLineAux : Nat → List Char → Bool → List Char → List (List Char) →
    List (List Char)
  | _, [], _, current, values => values ++ [current]
  | 0, _ :: _, _, current, values => values ++ [current]
  | fuel + 1, '"' :: '"' :: rest2, true, current, values =>
    parseCSVLineAux fuel rest2 true (current ++ ['"']) values
  | fuel + 1, '"' :: rest, inQuotes, current, values =>
    parseCSVLineAux fuel rest (!inQuotes) current values
  | fuel + 1, ',' :: rest, inQuotes, current, values =>
    if inQuotes then parseCSVLineAux fuel rest inQuotes (current ++ [',']) values
    else parseCSVLineAux fuel rest inQuotes [] (values ++ [current])
  | fuel + 1, c :: rest, inQuotes, current, values =>
    parseCSVLineAux fuel rest inQuotes (current ++ [c]) values

/-- `this.parseCSVLine(line)` as a function on strings. The fuel argument
(the input length, one step per loop iteration of the source) keeps the
recursion structural; every step consumes at least one character, so the
fuel never runs out. -/
def parseCSVLine (line : String) : List String :=
  (parseCSVLineAux line.toList.length line.toList false [] []).map fun l => ⟨l⟩

/-- The Hebrew month-name table `monthMap` of `parseAndValidateCSV`
(budget.js:3268-3272), name to zero-padded number string. -/
def monthMapList : List (String × String) :=
  [("ינואר", "01"), ("פברואר", "02"), ("מרץ", "03"), ("אפריל", "04"),
   ("מאי", "05"), ("יוני", "06"), ("יולי", "07"), ("אוגוסט", "08"),
   ("ספטמבר", "09"), ("אוקטובר", "10"), ("נובמבר", "11"), ("דצמבר", "12")]

/-- `monthMap[monthName]`: `none` models the `undefined` lookup. -/
def monthMap (name : String) : Option String :=
  List.lookup name monthMapList

/-- The inverse table `hebrewMonthNames` (budget.js:3336-3340), number string
to Hebrew name. -/
def hebrewMonthNamesList : List (String × String) :=
  [("01", "ינואר"), ("02", "פברואר"), ("03", "מרץ"), ("04", "אפריל"),
   ("05", "מאי"), ("06", "יוני"), ("07", "יולי"), ("08", "אוגוסט"),
   ("09", "ספטמבר"), ("10", "אוקטובר"), ("11", "נובמבר"), ("12", "דצמבר")]

/-- `getMonthName` (budget.js:2419-2429) on an already-numeric month. -/
def getMonthName (n : Int) : String :=
  if n == 1 then "ינואר" else if n == 2 then "פברואר"
  else if n == 3 then "מרץ" else if n == 4 then "אפריל"
  else if n == 5 then "מאי" else if n == 6 then "יוני"
  else if n == 7 then "יולי" else if n == 8 then "אוגוסט"
  else if n == 9 then "ספטמבר" else if n == 10 then "אוקטובר"
  else if n == 11 then "נובמבר" else if n == 12 then "דצמבר"
  else toString n

/-- `getMonthName(parseInt(x))` on a month-number string; a `NaN` month
renders as the string "NaN" does in JS. -/
def getMonthNameOfString (s : String) : String :=
  match parseIntJS s with
  | some n => getMonthName n
  | none => "NaN"

/-- The expected CSV header `['שנה', 'חודש', 'פריט', 'חובה', 'זכות']`
(budget.js:3253). -/
def expectedHeaders : List String :=
  ["שנה", "חודש", "פריט", "חובה", "זכות"]

/-- The header validation (budget.js:3256-3258): every expected cell is
present, truthy, and equals the expectation once `"` is stripped. -/
def headerMatches (header : List String) : Bool :=
  expectedHeaders.enum.all fun p =>
    match header.get? p.1 with
    | some h => h != "" && stripDoubleQuotes h == p.2
    | none => false

/-- The bad-month-name abort message of the data-row loop (budget.js:3304). -/
def badMonthMsg (i : Nat) (monthName : String) : String :=
  "שם חודש לא תקין בשורה " ++ toString (i + 1) ++ ": \"" ++ monthName ++
    "\"\nצפוי: ינואר, פברואר, וכו\x27."

/-- The bad-amount abort message of the data-row loop (budget.js:3328). -/
def badAmountMsg (i : Nat) (raw : String) : String :=
  "סכום לא תקין בשורה " ++ toString (i + 1) ++ ": \"" ++ raw ++ "\""

/-- The multi-month batch rejection message (budget.js:3401). -/
def multiMonthMsg (names : List String) : String :=
  "הקובץ מכיל עסקאות ממספר חודשים: " ++ String.intercalate ", " names ++
    "\nכל העסקאות בקובץ חייבות להיות מאותו חודש."

/-- The month-mismatch rejection message (budget.js:3409). -/
def monthMismatchMsg (selName csvName : String) : String :=
  "אי-התאמה בין החודש הנבחר לחודש בקובץ!\n\nחודש נבחר באתר: " ++ selName ++
    "\nחודש בקובץ CSV: " ++ csvName ++ "\n\nאנא בחר את החודש \"" ++ csvName ++
    "\" ונסה שוב."

/-- The multi-year batch rejection message (budget.js:3417). -/
def multiYearMsg (years : List String) : String :=
  "הקובץ מכיל עסקאות ממספר שנים: " ++ String.intercalate ", " years ++
    "\nכל העסקאות בקובץ חייבות להיות מאותה שנה."

/-- The year-mismatch rejection message (budget.js:3425). -/
def yearMismatchMsg (currentYear : Int) (csvYear : String) : String :=
  "אי-התאמה בין השנה הנבחרת לשנה בקובץ!\n\nשנה נבחרת באתר: " ++
    toString currentYear ++ "\nשנה בקובץ CSV: " ++ csvYear ++
    "\n\nאנא בחר את השנה " ++ csvYear ++ " ונסה שוב, או ערוך את הקובץ."

/-- What one iteration of the data-row loop of `parseAndValidateCSV`
(budget.js:3280-3395) does. `shortRow` covers the two silent `continue`s
before anything is recorded (blank line, fewer than five fields); the other
constructors carry the month/year strings added to the `months`/`years`
sets, which happens before the debit/credit branch. -/
inductive RowResult where
  | shortRow
  | badMonth (error : String)
  | bothEmpty (month year : String)
  | badAmount (error : String)
  | txRow (month year : String) (t : Transaction)
  | checkRow (month year : String) (c : CheckItem)
deriving Repr, DecidableEq

/-- Building the output of one surviving CSV data row (budget.js:3332-3390)
once its amount and type are known: a row whose item is exactly `(שיק)` is
diverted into the check-items array with a synthesized item label; any other
row becomes a transaction with a category and a payment-method flag.
(`irreducible`: proofs use its equations, never silent unfolding.) -/
@[irreducible] def buildRow (mappings : List (String × MappingEntry))
    (month year monthName item : String) (amount : ℚ) (type : String) :
    RowResult :=
  if item == "(שיק)" then
    let monthNameForItem := (List.lookup month hebrewMonthNamesList).getD monthName
    .checkRow month year
      { item := "הוצאות חודש " ++ monthNameForItem,
        amount := amount,
        month := (parseIntJS month).getD 0,
        year := parseIntJS year,
        note := "", checkNumber := "", payeeName := "",
        color := "yellow" }
  else
    let isCheckPayment := strIncludes item.toLower "שיק"
    let category :=
      if isCheckPayment then "שונות" else getCategoryForItem mappings item
    let noteToAdd := if item == "שיק" then "צ\x27יק" else ""
    .txRow month year
      { item := item, amount := amount, type := type,
        category := category,
        month := (parseIntJS month).getD 0,
        year := parseIntJS year,
        note := noteToAdd,
        paymentMethod := if isCheckPayment then "check" else "cash",
        checkDetails := if isCheckPayment then some ("", "") else none,
        color := some "yellow" }

/-- One iteration of the data-row loop of `parseAndValidateCSV`
(budget.js:3280-3395); `i` is the 0-based line index used in error texts.
The credit column, when non-empty, wins over the debit column (the source
checks `credit` first); the NaN check on the parsed amount is the `none`
branch of each `parseFloatJS` match. -/
def processRow (mappings : List (String × MappingEntry)) (i : Nat)
    (rawLine : String) : RowResult :=
  let line := jsTrim rawLine
  if line == "" then .shortRow
  else
    let values := parseCSVLine line
    if values.length < 5 then .shortRow
    else
      let year := jsTrim (values.getD 0 "")
      let monthName := jsTrim (values.getD 1 "")
      let item := stripQuotesAll (jsTrim (values.getD 2 ""))
      let debit := jsTrim (values.getD 3 "")
      let credit := jsTrim (values.getD 4 "")
      match monthMap monthName with
      | none => .badMonth (badMonthMsg i monthName)
      | some month =>
        -- months.add(month); years.add(year) happen here; the caller records
        -- them from the month/year fields of the remaining constructors.
        if credit != "" then
          match parseFloatJS credit with
          | none => .badAmount (badAmountMsg i (if debit != "" then debit else credit))
          | some a => buildRow mappings month year monthName item a "income"
        else if debit != "" then
          match parseFloatJS debit with
          | none => .badAmount (badAmountMsg i (if debit != "" then debit else credit))
          | some a => buildRow mappings month year monthName item (-|a|) "expense"
        else .bothEmpty month year

/-- The accumulator of the data-row loop: the built `transactions` and
`checkItems` arrays and the `months` / `years` sets (insertion order). -/
structure RowAcc where
  transactions : List Transaction
  checkItems : List CheckItem
  months : List String
  years : List String
deriving Repr, DecidableEq

/-- `months.add(month); years.add(year)` for one surviving row. -/
def addMonthYear (acc : RowAcc) (m y : String) : RowAcc :=
  { acc with months := setAdd acc.months m, years := setAdd acc.years y }

/-- The data-row loop of `parseAndValidateCSV` (budget.js:3280-3395): an
`Except` because a bad month name or amount aborts the whole parse. -/
def processRows (mappings : List (String × MappingEntry)) :
    List String → Nat → RowAcc → Except String RowAcc
  | [], _, acc => .ok acc
  | l :: rest, i, acc =>
    match processRow mappings i l with
    | .shortRow => processRows mappings rest (i + 1) acc
    | .badMonth e => .error e
    | .bothEmpty m y => processRows mappings rest (i + 1) (addMonthYear acc m y)
    | .badAmount e => .error e
    | .txRow m y t =>
      let acc2 := addMonthYear acc m y
      processRows mappings rest (i + 1)
        { acc2 with transactions := acc2.transactions ++ [t] }
    | .checkRow m y c =>
      let acc2 := addMonthYear acc m y
      processRows mappings rest (i + 1)
        { acc2 with checkItems := acc2.checkItems ++ [c] }

/-- The result shape of `parseAndValidateCSV`: `{success: false, error}` or
`{success: true, transactions, checkItems}`. -/
inductive ParseResult where
  | failure (error : String)
  | success (transactions : List Transaction) (checkItems : List CheckItem)
deriving Repr, DecidableEq

/-- The transactions of a successful parse (empty on failure). -/
def ParseResult.txList : ParseResult → List Transaction
  | .success txs _ => txs
  | .failure _ => []

/-- The check items of a successful parse (empty on failure). -/
def ParseResult.ckList : ParseResult → List CheckItem
  | .success _ cks => cks
  | .failure _ => []

/-- Whether a parse succeeded. -/
def ParseResult.isSuccess : ParseResult → Bool
  | .success _ _ => true
  | .failure _ => false

/-- `parseAndValidateCSV` (budget.js:3230-3434). `selectedMonth` is the value
of the month selector the function reads from the DOM ('all' or a
zero-padded month-number string); `currentYear` is `this.currentYear`.
`Array.from(months)[0]` on an empty set is `undefined` in JS; here the
unreachable empty case reads as `""`, which fails the same comparison. -/
def parseAndValidateCSV (selectedMonth : String) (currentYear : Int)
    (mappings : List (String × MappingEntry)) (csvContent : String) :
    ParseResult :=
  if selectedMonth == "all" then
    .failure "יש לבחור חודש מסוים לפני ייבוא קובץ CSV.\nאנא בחר חודש מהתפריט הנפתח ונסה שוב."
  else
    let lines := (jsSplit '\n' csvContent).filter fun l => jsTrim l != ""
    if lines.length < 2 then
      .failure "הקובץ ריק או לא מכיל נתונים."
    else
      let header := (jsSplit ',' (lines.getD 0 "")).map jsTrim
      if !headerMatches header then
        .failure "כותרות הקובץ אינן תקינות.\nצפוי: שנה,חודש,פריט,חובה,זכות"
      else
        match processRows mappings (lines.drop 1) 1 ⟨[], [], [], []⟩ with
        | .error e => .failure e
        | .ok acc =>
          if acc.months.length > 1 then
            .failure (multiMonthMsg (acc.months.map getMonthNameOfString))
          else
            let csvMonth := acc.months.getD 0 ""
            if csvMonth != selectedMonth then
              .failure (monthMismatchMsg (getMonthNameOfString selectedMonth)
                (getMonthNameOfString csvMonth))
            else if acc.years.length > 1 then
              .failure (multiYearMsg acc.years)
            else
              let csvYear := acc.years.getD 0 ""
              if parseIntJS csvYear != some currentYear then
                .failure (yearMismatchMsg currentYear csvYear)
              else
                .success acc.transactions acc.checkItems

/-- The notification counters `importCSV` builds
(budget.js:2848-2850, 2866). -/
structure ImportSummary where
  addedCount : Nat
  skippedCount : Nat
  checkItemsCount : Nat
  skippedCheckItems : Nat
deriving Repr, DecidableEq

/-- The CSV branch of `importCSV` (budget.js:2836-2926): parse, and on
success merge transactions and check items into the live state with
duplicate skipping; on failure the state is returned untouched. -/
def importCSVText (s : BudgetState) (selectedMonth : String)
    (csvContent : String) : BudgetState × Except String ImportSummary :=
  match parseAndValidateCSV selectedMonth s.currentYear s.mappings csvContent with
  | .failure e => (s, .error e)
  | .success txs cks =>
    let rt := mergeTransactions s.transactions txs
    let rc := mergeCheckItems s.importedCheckItems cks
    ({ s with transactions := rt.1, importedCheckItems := rc.1 },
     .ok ⟨rt.2.1, rt.2.2, rc.2.1, rc.2.2⟩)

/-- The period key `` `${year}-${month}` `` used by the balance maps. -/
def balKey (year month : Int) : String :=
  toString year ++ "-" ++ toString month

/-- `t.year || year`: the year a transaction is counted under — the stored
year unless it is absent or falsy (`0`), in which case the given year. -/
def effectiveYear (t : Transaction) (year : Int) : Int :=
  match t.year with
  | some y => if y == 0 then year else y
  | none => year

/-- `calculateClosingBalance` (budget.js:2144-2161). -/
def calculateClosingBalance (s : BudgetState) (month : Int) (year : Int) : ℚ :=
  let monthlyTransactions := s.transactions.filter fun t =>
    t.month == month && effectiveYear t year == year
  let income := (monthlyTransactions.filter fun t => t.type == "income").foldl
    (fun sum t => sum + t.amount) 0
  let expenses := (monthlyTransactions.filter fun t => t.type == "expense").foldl
    (fun sum t => sum + |t.amount|) 0
  let transfers := (monthlyTransactions.filter fun t => t.type == "transfer").foldl
    (fun sum t => sum + t.amount) 0
  let openingBalance := (List.lookup (balKey year month) s.openingBalances).getD 0
  openingBalance + income - expenses + transfers

/-- The opening-balance portion of `updateBalanceSummary`
(budget.js:1930-1948): the opening balance the summary displays, and the
state after the auto-derivation (the rest of the function renders HTML).
The auto path runs when the stored entry is `undefined` or the key is not
manually overridden, and the month is not January. -/
def updateBalanceAuto (s : BudgetState) (month : Int) : ℚ × BudgetState :=
  let key := balKey s.currentYear month
  let stored := List.lookup key s.openingBalances
  if (stored.isNone || !(s.manualOpeningBalances.contains key)) && month != 1 then
    let prevMonth : Int := if month == 1 then 12 else month - 1
    let prevYear : Int := if month == 1 then s.currentYear - 1 else s.currentYear
    let autoBalance := calculateClosingBalance s prevMonth prevYear
    if autoBalance != 0 then
      (autoBalance, { s with openingBalances := mapSet s.openingBalances key autoBalance })
    else (0, s)
  else if stored.isNone then (0, s)
  else (stored.getD 0, s)

/-- The save handler of `showOpeningBalanceModal` (budget.js:2049-2058):
`parseFloat(input) || 0` is stored at the key and the key is marked manual. -/
def saveOpeningBalance (s : BudgetState) (month : Int) (inputValue : String) :
    BudgetState :=
  let newBalance := (parseFloatJS inputValue).getD 0
  let key := balKey s.currentYear month
  { s with openingBalances := mapSet s.openingBalances key newBalance,
           manualOpeningBalances := setAdd s.manualOpeningBalances key }

/-- The validated form data `addTransaction` reads from the DOM
(budget.js:533-542): `month` is `parseInt` of the month selector (`none` for
`NaN` on the 'all' option), `amount` is `parseFloat` of the amount input
(`none` for `NaN`), `item` and `note` arrive trimmed. -/
structure TransactionFormData where
  month : Option Int
  item : String
  amount : Option ℚ
  note : String
  isCheck : Bool
  isSpecialCheckItem : Bool
  color : String
  type : String
deriving Repr, DecidableEq

/-- What a call of `addTransaction` did: an alert-and-return, a special
check item appended, or a transaction appended. -/
inductive AddOutcome where
  | rejected (message : String)
  | addedCheck (c : CheckItem) (s : BudgetState)
  | addedTx (t : Transaction) (s : BudgetState)
deriving Repr, DecidableEq

/-- The `checkItem` object the special-check branch of `addTransaction`
builds (budget.js:554-564): the amount is forced negative. -/
def specialCheckItem (s : BudgetState) (form : TransactionFormData)
    (selectedMonth : Int) : CheckItem :=
  { item := form.item,
    amount := -|form.amount.getD 0|,  -- Always negative for expense
    month := selectedMonth,
    year := some s.currentYear,
    note := form.note,
    checkNumber := "", payeeName := "",
    color := "purple" }

/-- The `transactionData` object `addTransaction` builds (budget.js:595-606):
the amount is `-|input|` for an expense and `|input|` otherwise. -/
def transactionData (s : BudgetState) (form : TransactionFormData)
    (currentCheckData : Option (String × String)) (selectedMonth : Int) :
    Transaction :=
  let amount := form.amount.getD 0
  let type := form.type
  let finalNote :=
    if form.item == "שיק" then
      if strIncludes form.note "צ\x27יק" then form.note
      else if form.note != "" then form.note ++ " - צ\x27יק"
      else "צ\x27יק"
    else form.note
  { item := form.item,
    amount := if type == "expense" then -|amount| else |amount|,
    type := type,
    category := getCategoryForItem s.mappings form.item,
    month := selectedMonth,
    year := some s.currentYear,
    note := finalNote,
    paymentMethod := if form.isCheck then "check" else "cash",
    checkDetails := if form.isCheck then currentCheckData else none,
    color := if form.color == "none" then none else some form.color }

/-- `addTransaction` on the new-transaction path (budget.js:518-659,
`isEditing = false`); `currentCheckData` is `this.currentCheckData`. -/
def addTransaction (s : BudgetState) (form : TransactionFormData)
    (currentCheckData : Option (String × String)) : AddOutcome :=
  match form.month with
  | none => .rejected "אנא בחר חודש ספציפי להוספת עסקה חדשה"
  | some selectedMonth =>
    if selectedMonth == 0 then
      .rejected "אנא בחר חודש ספציפי להוספת עסקה חדשה"
    else if form.item == "" || form.amount.isNone then
      .rejected "אנא מלא את כל השדות החובה"
    else
      if form.isSpecialCheckItem then
        .addedCheck (specialCheckItem s form selectedMonth)
          { s with importedCheckItems :=
              (s.importedCheckItems ++ [specialCheckItem s form selectedMonth]) }
      else if form.isCheck && currentCheckData.isNone then
        .rejected "אנא הזן את פרטי הצ\x27יק"
      else
        .addedTx (transactionData s form currentCheckData selectedMonth)
          { s with transactions :=
              (s.transactions ++ [transactionData s form currentCheckData selectedMonth]) }

/-! ## Helper lemmas -/

/-- `List.contains` on strings agrees with membership. -/
theorem contains_iff_mem (l : List String) (x : String) :
    l.contains x = true ↔ x ∈ l := by
  induction l with
  | nil => simp [List.contains]
  | cons a t ih =>
    simp only [List.contains_cons, Bool.or_eq_true, beq_iff_eq, List.mem_cons, ih]

/-- Lookup after `mapSet`: the new value at the written key, the old map
elsewhere. -/
theorem lookup_mapSet {α : Type} (l : List (String × α)) (k k' : String)
    (v : α) :
    List.lookup k' (mapSet l k v) = if k' = k then some v else List.lookup k' l := by
  induction l with
  | nil =>
    by_cases h : k' = k
    · subst h; simp [mapSet, List.lookup]
    · have hb : (k' == k) = false := beq_eq_false_iff_ne.mpr h
      simp [mapSet, List.lookup, hb, h]
  | cons p rest ih =>
    obtain ⟨k0, v0⟩ := p
    by_cases h0 : k0 = k
    · subst h0
      by_cases h : k' = k0
      · subst h; simp [mapSet, List.lookup]
      · have hb : (k' == k0) = false := beq_eq_false_iff_ne.mpr h
        simp [mapSet, List.lookup, hb, h]
    · have hb0 : (k0 == k) = false := beq_eq_false_iff_ne.mpr h0
      by_cases h' : k' = k0
      · subst h'
        have hne : ¬(k' = k) := fun hh => h0 (hh ▸ rfl)
        simp [mapSet, List.lookup, hb0, hne]
      · have hb' : (k' == k0) = false := beq_eq_false_iff_ne.mpr h'
        simp [mapSet, List.lookup, hb0, hb', ih]

/-- The element just added by `setAdd` is a member. -/
theorem mem_setAdd_self (l : List String) (x : String) : x ∈ setAdd l x := by
  unfold setAdd
  split
  · rename_i h; exact (contains_iff_mem l x).mp h
  · simp

/-- A `foldl` that adds `f t` at every element, written as a sum. -/
theorem foldl_add_eq_sum (f : Transaction → ℚ) (l : List Transaction) :
    ∀ init : ℚ, l.foldl (fun sum t => sum + f t) init = init + (l.map f).sum := by
  induction l with
  | nil => intro init; simp
  | cons t ts ih =>
    intro init
    rw [List.foldl_cons, ih, List.map_cons, List.sum_cons]
    ring

/-- A nonempty string stays nonempty under append. -/
theorem append_ne_empty (a b : String) (h : a ≠ "") : a ++ b ≠ "" := by
  intro hc
  apply h
  have hd : a.data ++ b.data = ([] : List Char) := congrArg String.data hc
  obtain ⟨ha, _⟩ := List.append_eq_nil.mp hd
  cases a
  simp_all

/-! ## C2: the deduplication rule -/

/-- C2: a candidate transaction is judged a duplicate exactly when some stored
transaction matches its item, month, year and type with amounts within 0.01;
an imported check item the same but without the type comparison. -/
theorem c2_duplicate_rule :
    (∀ (store : List Transaction) (t : Transaction),
      isDuplicateTransaction store t = true ↔
        ∃ e ∈ store, e.item = t.item ∧ e.month = t.month ∧ e.year = t.year ∧
          e.type = t.type ∧ |e.amount - t.amount| < 1 / 100) ∧
    (∀ (store : List CheckItem) (c : CheckItem),
      isDuplicateCheckItem store c = true ↔
        ∃ e ∈ store, e.item = c.item ∧ e.month = c.month ∧ e.year = c.year ∧
          |e.amount - c.amount| < 1 / 100) := by
  constructor
  · intro store t
    simp [isDuplicateTransaction, List.any_eq_true, and_assoc]
  · intro store c
    simp [isDuplicateCheckItem, List.any_eq_true, and_assoc]

/-! ## C3: re-importing a batch adds nothing -/

/-- A transaction is always a duplicate of a store that holds it verbatim. -/
theorem isDuplicateTransaction_self (l : List Transaction) (t : Transaction) :
    isDuplicateTransaction (l ++ [t]) t = true := by
  simp only [isDuplicateTransaction, List.any_eq_true]
  refine ⟨t, by simp, ?_⟩
  simp

/-- Duplicate detection is monotone in the store. -/
theorem isDuplicateTransaction_mono (l l' : List Transaction)
    (t : Transaction) (h : isDuplicateTransaction l t = true) :
    isDuplicateTransaction (l ++ l') t = true := by
  simp only [isDuplicateTransaction, List.any_eq_true] at h ⊢
  obtain ⟨e, he, hp⟩ := h
  exact ⟨e, List.mem_append_left _ he, hp⟩

/-- The merge loop only appends to the store. -/
theorem mergeTransactions_store_append (batch : List Transaction) :
    ∀ store, ∃ added, (mergeTransactions store batch).1 = store ++ added := by
  induction batch with
  | nil => intro store; exact ⟨[], by simp [mergeTransactions]⟩
  | cons t ts ih =>
    intro store
    by_cases h : isDuplicateTransaction store t = true
    · obtain ⟨a, ha⟩ := ih store
      exact ⟨a, by simp [mergeTransactions, h, ha]⟩
    · obtain ⟨a, ha⟩ := ih (store ++ [t])
      exact ⟨[t] ++ a, by simp [mergeTransactions, h, ha]⟩

/-- After merging a batch, every element of the batch is a duplicate of the
resulting store. -/
theorem mergeTransactions_all_dup (batch : List Transaction) :
    ∀ store t, t ∈ batch →
      isDuplicateTransaction (mergeTransactions store batch).1 t = true := by
  induction batch with
  | nil => intro _ t ht; cases ht
  | cons b ts ih =>
    intro store t ht
    rcases List.mem_cons.mp ht with rfl | hmem
    · by_cases h : isDuplicateTransaction store t = true
      · obtain ⟨a, ha⟩ := mergeTransactions_store_append ts store
        have hs : (mergeTransactions store (t :: ts)).1 = store ++ a := by
          simp [mergeTransactions, h, ha]
        rw [hs]
        exact isDuplicateTransaction_mono _ _ _ h
      · obtain ⟨a, ha⟩ := mergeTransactions_store_append ts (store ++ [t])
        have hs : (mergeTransactions store (t :: ts)).1 = (store ++ [t]) ++ a := by
          simp [mergeTransactions, h, ha]
        rw [hs]
        exact isDuplicateTransaction_mono _ _ _ (isDuplicateTransaction_self store t)
    · by_cases h : isDuplicateTransaction store b = true
      · have hs : (mergeTransactions store (b :: ts)).1 = (mergeTransactions store ts).1 := by
          simp [mergeTransactions, h]
        rw [hs]
        exact ih store t hmem
      · have hs : (mergeTransactions store (b :: ts)).1
            = (mergeTransactions (store ++ [b]) ts).1 := by
          simp [mergeTransactions, h]
        rw [hs]
        exact ih _ t hmem

/-- Merging a batch of all-duplicates changes nothing and counts every row
as skipped. -/
theorem mergeTransactions_all_dup_eq (batch : List Transaction) :
    ∀ store, (∀ t ∈ batch, isDuplicateTransaction store t = true) →
      mergeTransactions store batch = (store, 0, batch.length) := by
  induction batch with
  | nil => intro store _; rfl
  | cons t ts ih =>
    intro store h
    have h1 := h t (List.mem_cons_self t ts)
    have h2 := ih store fun u hu => h u (List.mem_cons_of_mem _ hu)
    simp [mergeTransactions, h1, h2]

/-- The `skippedCount` an import reported (0 when the import failed). -/
def importSkipped (r : BudgetState × Except String ImportSummary) : Nat :=
  match r.2 with
  | .ok summary => summary.skippedCount
  | .error _ => 0

/-- C3: importing the same validated batch a second time adds no transaction:
the second import leaves the transaction list unchanged and reports
`skippedCount` equal to the batch size. -/
theorem c3_reimport_adds_nothing :
    ∀ (s : BudgetState) (sel csv : String),
      (parseAndValidateCSV sel s.currentYear s.mappings csv).isSuccess = true →
      ((importCSVText (importCSVText s sel csv).1 sel csv).1).transactions
          = ((importCSVText s sel csv).1).transactions ∧
        importSkipped (importCSVText (importCSVText s sel csv).1 sel csv)
          = ((parseAndValidateCSV sel s.currentYear s.mappings csv).txList).length := by
  intro s sel csv h
  cases hp : parseAndValidateCSV sel s.currentYear s.mappings csv with
  | failure e => rw [hp] at h; cases h
  | success txs cks =>
    set s1 := (importCSVText s sel csv).1 with hs1
    have htrans : s1.transactions = (mergeTransactions s.transactions txs).1 := by
      rw [hs1]; simp [importCSVText, hp]
    have hyear : s1.currentYear = s.currentYear := by
      rw [hs1]; simp [importCSVText, hp]
    have hmaps : s1.mappings = s.mappings := by
      rw [hs1]; simp [importCSVText, hp]
    have hp2 : parseAndValidateCSV sel s1.currentYear s1.mappings csv
        = .success txs cks := by
      rw [hyear, hmaps]; exact hp
    have hdup : ∀ t ∈ txs, isDuplicateTransaction s1.transactions t = true := by
      rw [htrans]
      exact fun t ht => mergeTransactions_all_dup txs s.transactions t ht
    have hmerge := mergeTransactions_all_dup_eq txs s1.transactions hdup
    constructor
    · simp [importCSVText, hp2, hmerge]
    · simp [importCSVText, hp2, importSkipped, hmerge, ParseResult.txList]

/-- Concrete empty state for the C3 witness. -/
def c3state : BudgetState := ⟨[], [], [], [], [], 2025⟩

/-- Concrete one-row CSV batch for the C3 witness. -/
def c3csv : String := "שנה,חודש,פריט,חובה,זכות\n2025,ינואר,חשמל,100,"

/-- Witness: C3 applied to a concrete one-row import done twice. -/
theorem c3_reimport_adds_nothing_witness :
    ((importCSVText (importCSVText c3state "01" c3csv).1 "01" c3csv).1).transactions
        = ((importCSVText c3state "01" c3csv).1).transactions ∧
      importSkipped (importCSVText (importCSVText c3state "01" c3csv).1 "01" c3csv)
        = ((parseAndValidateCSV "01" c3state.currentYear c3state.mappings c3csv).txList).length :=
  c3_reimport_adds_nothing c3state "01" c3csv (by with_unfolding_all rfl)

/-! ## C4: balance chaining for non-overridden months -/

/-- C4: for a month `m > 1` whose key is not manually overridden, the
auto-derivation path of `updateBalanceSummary` returns the previous month's
closing balance and caches it when that balance is nonzero, and returns 0
leaving the state untouched when it is exactly zero. -/
theorem c4_balance_chaining :
    ∀ (s : BudgetState) (m : Int), 1 < m →
      balKey s.currentYear m ∉ s.manualOpeningBalances →
      (calculateClosingBalance s (m - 1) s.currentYear ≠ 0 →
        (updateBalanceAuto s m).1 = calculateClosingBalance s (m - 1) s.currentYear ∧
        List.lookup (balKey s.currentYear m) ((updateBalanceAuto s m).2).openingBalances
          = some (calculateClosingBalance s (m - 1) s.currentYear)) ∧
      (calculateClosingBalance s (m - 1) s.currentYear = 0 →
        (updateBalanceAuto s m).1 = 0 ∧ (updateBalanceAuto s m).2 = s) := by
  intro s m hm hmem
  have hc : s.manualOpeningBalances.contains (balKey s.currentYear m) = false := by
    by_cases h : s.manualOpeningBalances.contains (balKey s.currentYear m) = true
    · exact absurd ((contains_iff_mem _ _).mp h) hmem
    · simpa using h
  have hm1 : (m == 1) = false := beq_eq_false_iff_ne.mpr (by omega)
  have hm1' : (m != 1) = true := by simp [bne, hm1]
  refine ⟨fun hz => ?_, fun hz => ?_⟩
  · have hb : (calculateClosingBalance s (m - 1) s.currentYear != 0) = true :=
      bne_iff_ne.mpr hz
    have hgoal : updateBalanceAuto s m =
        (calculateClosingBalance s (m - 1) s.currentYear,
         { s with openingBalances := (mapSet s.openingBalances
             (balKey s.currentYear m)
             (calculateClosingBalance s (m - 1) s.currentYear)) }) := by
      simp only [updateBalanceAuto, hc, hm1, hm1']
      simp only [Bool.not_false, Bool.or_true, Bool.true_and, Bool.and_true, if_true]
      simp only [hb, if_false, Bool.false_eq_true, ite_false]
      simp
    rw [hgoal]
    refine ⟨rfl, ?_⟩
    rw [lookup_mapSet]
    simp
  · have hb : (calculateClosingBalance s (m - 1) s.currentYear != 0) = false := by
      simp [bne, hz]
    have hgoal : updateBalanceAuto s m = (0, s) := by
      simp only [updateBalanceAuto, hc, hm1, hm1']
      simp only [Bool.not_false, Bool.or_true, Bool.true_and, Bool.and_true, if_true]
      simp only [hb, if_false, Bool.false_eq_true, ite_false]
    rw [hgoal]
    exact ⟨rfl, rfl⟩

/-- A January income of 100 for the C4 witness state. -/
def c4tx : Transaction :=
  { item := "משכורת", amount := 100, type := "income", category := "לא מקוטלג",
    month := 1, year := some 2025, note := "", paymentMethod := "cash",
    checkDetails := none, color := none }

/-- Concrete state for the C4 witness: one January income of 100, so the
January closing balance is a nonzero 100. -/
def c4state : BudgetState :=
  { transactions := [c4tx], importedCheckItems := [], mappings := [],
    openingBalances := [], manualOpeningBalances := [], currentYear := 2025 }

/-- Witness: C4 applied to February of the concrete state. -/
theorem c4_balance_chaining_witness :
    calculateClosingBalance c4state (2 - 1) c4state.currentYear ≠ 0 ∧
    ((updateBalanceAuto c4state 2).1
        = calculateClosingBalance c4state (2 - 1) c4state.currentYear ∧
      List.lookup (balKey c4state.currentYear 2)
          ((updateBalanceAuto c4state 2).2).openingBalances
        = some (calculateClosingBalance c4state (2 - 1) c4state.currentYear)) :=
  have hne : calculateClosingBalance c4state (2 - 1) c4state.currentYear ≠ 0 :=
    of_decide_eq_true (by with_unfolding_all rfl)
  ⟨hne, (c4_balance_chaining c4state 2 (by norm_num)
    (by simp [c4state, balKey])).1 hne⟩

/-! ## C6: manual overrides survive auto-derivation -/

/-- `updateBalanceAuto` never changes the manual-override set. -/
theorem updateBalanceAuto_manual (s : BudgetState) (m : Int) :
    ((updateBalanceAuto s m).2).manualOpeningBalances = s.manualOpeningBalances := by
  simp only [updateBalanceAuto]
  repeat' split
  all_goals rfl

/-- What `updateBalanceAuto` can do to the state: nothing, or one `mapSet`
at the derived key — and in the latter case the entry was missing or the key
was not manually overridden. -/
theorem updateBalanceAuto_cases (s : BudgetState) (m : Int) :
    (updateBalanceAuto s m).2 = s ∨
    (((List.lookup (balKey s.currentYear m) s.openingBalances).isNone = true ∨
        s.manualOpeningBalances.contains (balKey s.currentYear m) = false) ∧
      ∃ q, (updateBalanceAuto s m).2
          = { s with openingBalances := (mapSet s.openingBalances
              (balKey s.currentYear m) q) }) := by
  simp only [updateBalanceAuto]
  split
  case isTrue h =>
    have hcond : (List.lookup (balKey s.currentYear m) s.openingBalances).isNone = true ∨
        s.manualOpeningBalances.contains (balKey s.currentYear m) = false := by
      have h' := ((Bool.and_eq_true _ _).mp h).1
      rcases (Bool.or_eq_true _ _).mp h' with h1 | h2
      · exact Or.inl h1
      · exact Or.inr (by simpa using h2)
    repeat' split
    all_goals first
      | exact Or.inl rfl
      | exact Or.inr ⟨hcond, _, rfl⟩
  case isFalse h =>
    split
    · exact Or.inl rfl
    · exact Or.inl rfl

/-- A manually overridden entry with a stored value is untouched by one run
of the auto-derivation path, whatever month that run is for. -/
theorem updateBalanceAuto_keeps_manual_value (s : BudgetState) (m : Int)
    (k : String) (v : ℚ) (hk : k ∈ s.manualOpeningBalances)
    (hv : List.lookup k s.openingBalances = some v) :
    List.lookup k ((updateBalanceAuto s m).2).openingBalances = some v := by
  rcases updateBalanceAuto_cases s m with h | ⟨hcond, q, h⟩
  · rw [h]; exact hv
  · rw [h]
    have hne : ¬ k = balKey s.currentYear m := by
      intro hkk
      rcases hcond with h1 | h2
      · rw [← hkk, hv] at h1
        simp at h1
      · rw [← hkk] at h2
        rw [(contains_iff_mem _ _).mpr hk] at h2
        simp at h2
    simp only [lookup_mapSet]
    rw [if_neg hne]
    exact hv

/-- Any sequence of auto-derivation runs preserves a manually overridden
entry with a stored value. -/
theorem foldl_updateBalanceAuto_keeps (runs : List Int) :
    ∀ (st : BudgetState) (k : String) (v : ℚ), k ∈ st.manualOpeningBalances →
      List.lookup k st.openingBalances = some v →
      List.lookup k
        ((runs.foldl (fun s m => (updateBalanceAuto s m).2) st).openingBalances)
        = some v := by
  induction runs with
  | nil => intro st k v _ hv; simpa using hv
  | cons m ms ih =>
    intro st k v hk hv
    rw [List.foldl_cons]
    exact ih _ k v (by rw [updateBalanceAuto_manual]; exact hk)
      (updateBalanceAuto_keeps_manual_value st m k v hk hv)

/-- C6: once the balance-edit operation has stored a manual opening balance
for a `(year, month)` key, any sequence of subsequent auto-derivation runs
leaves the stored value unchanged. -/
theorem c6_manual_override_durability :
    ∀ (s : BudgetState) (month : Int) (input : String) (runs : List Int),
      List.lookup (balKey s.currentYear month)
        ((runs.foldl (fun st m => (updateBalanceAuto st m).2)
          (saveOpeningBalance s month input)).openingBalances)
        = some ((parseFloatJS input).getD 0) := by
  intro s month input runs
  apply foldl_updateBalanceAuto_keeps
  · simp only [saveOpeningBalance]
    exact mem_setAdd_self _ _
  · simp only [saveOpeningBalance, lookup_mapSet]
    simp

/-! ## C5: the closing-balance formula -/

/-- The closing-balance formula exactly as the spec sentence states it: the
sums range over transactions whose month matches and whose year equals the
given year, where a transaction with NO year field is counted in the given
year. A spec-side definition, compared against `calculateClosingBalance`. -/
def specClosingBalance (s : BudgetState) (month year : Int) : ℚ :=
  let sel := s.transactions.filter fun t =>
    t.month == month && (t.year == some year || t.year == none)
  ((List.lookup (balKey year month) s.openingBalances).getD 0)
    + ((sel.filter fun t => t.type == "income").map Transaction.amount).sum
    + ((sel.filter fun t => t.type == "transfer").map Transaction.amount).sum
    - ((sel.filter fun t => t.type == "expense").map fun t => |t.amount|).sum

/-- A transaction carrying the falsy year `0` for the C5 counterexample. -/
def c5tx : Transaction :=
  { item := "הכנסה", amount := 5, type := "income", category := "",
    month := 1, year := some 0, note := "", paymentMethod := "cash",
    checkDetails := none, color := none }

/-- State for the C5 counterexample. -/
def c5state : BudgetState :=
  { transactions := [c5tx], importedCheckItems := [], mappings := [],
    openingBalances := [], manualOpeningBalances := [], currentYear := 2025 }

/-- C5 counterexample: a stored transaction with `year: 0` (a falsy but
present year field) is counted by `calculateClosingBalance` under the given
year 2025 — `t.year || year` treats 0 as missing — while the claim's
formula, which counts only matching years and absent year fields, excludes
it: the code returns 5 where the claim's formula returns 0. -/
theorem c5_counterexample :
    calculateClosingBalance c5state 1 2025 = 5 ∧
    specClosingBalance c5state 1 2025 = 0 ∧ (5 : ℚ) ≠ 0 :=
  ⟨by with_unfolding_all rfl, by with_unfolding_all rfl, by norm_num⟩

/-- C5 amended: `calculateClosingBalance` is the opening balance (0 when the
entry is missing) plus the income and transfer sums minus the absolute
expense sum, over transactions whose month matches and whose year equals
the given year — where a transaction with no year field, or with the falsy
year `0`, is counted in the given year. -/
theorem c5_amended_closing_formula :
    ∀ (s : BudgetState) (month year : Int),
      calculateClosingBalance s month year =
        ((List.lookup (balKey year month) s.openingBalances).getD 0)
          + (((s.transactions.filter fun t => t.month == month &&
                (t.year == some year || t.year == none || t.year == some 0)).filter
              fun t => t.type == "income").map Transaction.amount).sum
          + (((s.transactions.filter fun t => t.month == month &&
                (t.year == some year || t.year == none || t.year == some 0)).filter
              fun t => t.type == "transfer").map Transaction.amount).sum
          - (((s.transactions.filter fun t => t.month == month &&
                (t.year == some year || t.year == none || t.year == some 0)).filter
              fun t => t.type == "expense").map fun t => |t.amount|).sum := by
  intro s month year
  have hfil : (s.transactions.filter fun t =>
        t.month == month && effectiveYear t year == year)
      = s.transactions.filter fun t => t.month == month &&
        (t.year == some year || t.year == none || t.year == some 0) := by
    apply List.filter_congr
    intro t _
    cases hy : t.year with
    | none => simp [effectiveYear, hy]
    | some y =>
      by_cases h0 : y = 0
      · subst h0
        simp [effectiveYear, hy]
      · have hb0 : (y == 0) = false := beq_eq_false_iff_ne.mpr h0
        simp [effectiveYear, hy, h0, hb0]
  unfold calculateClosingBalance
  rw [hfil]
  simp only [foldl_add_eq_sum]
  ring

/-! ## C8: validation failures are fail-closed -/

/-- The bad-month message is never empty. -/
theorem badMonthMsg_ne (i : Nat) (monthName : String) : badMonthMsg i monthName ≠ "" := by
  unfold badMonthMsg
  repeat' apply append_ne_empty
  decide

/-- The bad-amount message is never empty. -/
theorem badAmountMsg_ne (i : Nat) (raw : String) : badAmountMsg i raw ≠ "" := by
  unfold badAmountMsg
  repeat' apply append_ne_empty
  decide

/-- The multi-month message is never empty. -/
theorem multiMonthMsg_ne (names : List String) : multiMonthMsg names ≠ "" := by
  unfold multiMonthMsg
  repeat' apply append_ne_empty
  decide

/-- The month-mismatch message is never empty. -/
theorem monthMismatchMsg_ne (a b : String) : monthMismatchMsg a b ≠ "" := by
  unfold monthMismatchMsg
  repeat' apply append_ne_empty
  decide

/-- The multi-year message is never empty. -/
theorem multiYearMsg_ne (years : List String) : multiYearMsg years ≠ "" := by
  unfold multiYearMsg
  repeat' apply append_ne_empty
  decide

/-- The year-mismatch message is never empty. -/
theorem yearMismatchMsg_ne (y : Int) (c : String) : yearMismatchMsg y c ≠ "" := by
  unfold yearMismatchMsg
  repeat' apply append_ne_empty
  decide

set_option maxHeartbeats 1600000 in
/-- Both abort messages of the data-row loop are nonempty. -/
theorem processRow_error_ne (mappings : List (String × MappingEntry)) (i : Nat)
    (line : String) :
    (∀ e, processRow mappings i line = .badMonth e → e ≠ "") ∧
    (∀ e, processRow mappings i line = .badAmount e → e ≠ "") := by
  constructor <;>
    · intro e h
      simp only [processRow] at h
      repeat' split at h
      any_goals cases h
      all_goals first
        | exact badMonthMsg_ne _ _
        | exact badAmountMsg_ne _ _
        | (unfold buildRow at h
           split at h <;> cases h)

/-- The row loop only aborts with a nonempty message. -/
theorem processRows_error_ne (mappings : List (String × MappingEntry)) :
    ∀ (lines : List String) (i : Nat) (acc : RowAcc) (e : String),
      processRows mappings lines i acc = .error e → e ≠ "" := by
  intro lines
  induction lines with
  | nil => intro i acc e h; cases h
  | cons l rest ih =>
    intro i acc e h
    unfold processRows at h
    cases hr : processRow mappings i l <;> simp only [hr] at h
    case shortRow => exact ih _ _ _ h
    case badMonth msg =>
      injection h with he
      exact he ▸ (processRow_error_ne mappings i l).1 _ hr
    case bothEmpty m y => exact ih _ _ _ h
    case badAmount msg =>
      injection h with he
      exact he ▸ (processRow_error_ne mappings i l).2 _ hr
    case txRow m y t => exact ih _ _ _ h
    case checkRow m y c => exact ih _ _ _ h

set_option maxHeartbeats 1600000 in
/-- Every failure `parseAndValidateCSV` returns carries a nonempty reason. -/
theorem parse_failure_ne (sel : String) (y : Int)
    (mappings : List (String × MappingEntry)) (csv : String) :
    ∀ e, parseAndValidateCSV sel y mappings csv = .failure e → e ≠ "" := by
  intro e h
  simp only [parseAndValidateCSV] at h
  repeat' split at h
  any_goals cases h
  all_goals first
    | with_reducible apply multiMonthMsg_ne
    | with_reducible apply monthMismatchMsg_ne
    | with_reducible apply multiYearMsg_ne
    | with_reducible apply yearMismatchMsg_ne
    | exact processRows_error_ne mappings _ _ _ _ (by assumption)
    | decide

/-- C8: whenever CSV validation fails, `importCSV` returns the failure with
its nonempty descriptive reason and the live state is returned untouched:
no transaction and no check item of the batch is added. -/
theorem c8_validation_fail_closed :
    ∀ (s : BudgetState) (sel csv e : String),
      parseAndValidateCSV sel s.currentYear s.mappings csv = .failure e →
      importCSVText s sel csv = (s, .error e) ∧ e ≠ "" := by
  intro s sel csv e h
  refine ⟨?_, parse_failure_ne _ _ _ _ _ h⟩
  simp [importCSVText, h]

/-- State for the C8 witness. -/
def c8state : BudgetState := ⟨[], [], [], [], [], 2025⟩

/-- Witness: C8 applied to a CSV with no data rows, which fails validation. -/
theorem c8_validation_fail_closed_witness :
    importCSVText c8state "01" "ריק"
        = (c8state, .error "הקובץ ריק או לא מכיל נתונים.") ∧
      "הקובץ ריק או לא מכיל נתונים." ≠ "" :=
  c8_validation_fail_closed c8state "01" "ריק" "הקובץ ריק או לא מכיל נתונים."
    (by with_unfolding_all rfl)

/-! ## C1: the sign invariant -/

/-- The trimmed `j`-th field of a CSV data row, as the row loop reads it. -/
def rowField (line : String) (j : Nat) : String :=
  jsTrim ((parseCSVLine (jsTrim line)).getD j "")

/-- What `buildRow` can produce: the check-item diversion or a transaction,
each carrying the row's amount and type unchanged. -/
theorem buildRow_txRow (mappings : List (String × MappingEntry))
    (month year monthName item : String) (amount : ℚ) (type : String)
    (m y : String) (t : Transaction)
    (h : buildRow mappings month year monthName item amount type = .txRow m y t) :
    t.type = type ∧ t.amount = amount := by
  unfold buildRow at h
  split at h
  · cases h
  · injection h with h1 h2 h3
    subst h3
    exact ⟨rfl, rfl⟩

/-- A check item built by `buildRow` carries the row's amount unchanged. -/
theorem buildRow_checkRow (mappings : List (String × MappingEntry))
    (month year monthName item : String) (amount : ℚ) (type : String)
    (m y : String) (c : CheckItem)
    (h : buildRow mappings month year monthName item amount type = .checkRow m y c) :
    c.amount = amount := by
  unfold buildRow at h
  split at h
  · injection h with h1 h2 h3
    subst h3
    rfl
  · cases h

/-- The sign facts the direct-entry path guarantees for an accepted
transaction. -/
def directPathSignOk (t : Transaction) : Prop :=
  (t.amount < 0 → t.type = "expense") ∧
  (t.type = "expense" → t.amount ≤ 0) ∧
  ((t.type = "income" ∨ t.type = "transfer") → 0 ≤ t.amount)

/-- The sign facts the Reconciler guarantees for an accepted transaction. -/
def reconcilerSignOk (t : Transaction) : Prop :=
  (t.type = "income" ∨ t.type = "expense") ∧
  (t.type = "expense" → t.amount ≤ 0)

set_option maxHeartbeats 1600000 in
/-- Everything `processRow` can return: a skip, one of the two aborts, a
both-empty skip, or a `buildRow` output whose type is `income` with a
non-empty credit field, or `expense` with a non-positive amount. -/
theorem processRow_spec (mappings : List (String × MappingEntry)) (i : Nat)
    (line : String) :
    processRow mappings i line = .shortRow ∨
    (∃ mn, processRow mappings i line = .badMonth (badMonthMsg i mn)) ∨
    (∃ raw, processRow mappings i line = .badAmount (badAmountMsg i raw)) ∨
    (∃ m y, processRow mappings i line = .bothEmpty m y) ∨
    (∃ m y mn item a type,
      ((type = "income" ∧ rowField line 4 ≠ "") ∨ (type = "expense" ∧ a ≤ 0)) ∧
      processRow mappings i line = buildRow mappings m y mn item a type) := by
  simp only [processRow]
  repeat' split
  all_goals first
    | exact Or.inl rfl
    | exact Or.inr (Or.inl ⟨_, rfl⟩)
    | exact Or.inr (Or.inr (Or.inl ⟨_, rfl⟩))
    | exact Or.inr (Or.inr (Or.inr (Or.inl ⟨_, _, rfl⟩)))
    | exact Or.inr (Or.inr (Or.inr (Or.inr
        ⟨_, _, _, _, _, _, Or.inl ⟨rfl, bne_iff_ne.mp
          ‹(jsTrim ((parseCSVLine (jsTrim line)).getD 4 "") != "") = true›⟩, rfl⟩)))
    | exact Or.inr (Or.inr (Or.inr (Or.inr
        ⟨_, _, _, _, _, _, Or.inr ⟨rfl, neg_nonpos.mpr (abs_nonneg _)⟩, rfl⟩)))

/-- Every transaction a data row emits satisfies the Reconciler sign facts. -/
theorem processRow_txRow_sign (mappings : List (String × MappingEntry))
    (i : Nat) (line : String) (m y : String) (t : Transaction)
    (h : processRow mappings i line = .txRow m y t) :
    reconcilerSignOk t := by
  rcases processRow_spec mappings i line with hs | ⟨mn, hs⟩ | ⟨raw, hs⟩ |
    ⟨m', y', hs⟩ | ⟨m', y', mn, item, a, type, hty, hs⟩
  case _ => rw [hs] at h; cases h
  case _ => rw [hs] at h; cases h
  case _ => rw [hs] at h; cases h
  case _ => rw [hs] at h; cases h
  rw [hs] at h
  obtain ⟨htype, hamt⟩ := buildRow_txRow _ _ _ _ _ _ _ _ _ _ h
  rcases hty with ⟨rfl, -⟩ | ⟨rfl, ha⟩
  · exact ⟨Or.inl htype, fun hexp => absurd (htype.symm.trans hexp) (by decide)⟩
  · refine ⟨Or.inr htype, fun _ => ?_⟩
    rw [hamt]
    exact ha

/-- The row loop preserves the Reconciler sign facts over the accumulated
transaction list. -/
theorem processRows_txs_sign (mappings : List (String × MappingEntry)) :
    ∀ (lines : List String) (i : Nat) (acc acc' : RowAcc),
      processRows mappings lines i acc = .ok acc' →
      (∀ t ∈ acc.transactions, reconcilerSignOk t) →
      ∀ t ∈ acc'.transactions, reconcilerSignOk t := by
  intro lines
  induction lines with
  | nil =>
    intro i acc acc' h hbase
    cases h
    exact hbase
  | cons l rest ih =>
    intro i acc acc' h hbase
    unfold processRows at h
    cases hr : processRow mappings i l <;> simp only [hr] at h
    case shortRow => exact ih _ _ _ h hbase
    case badMonth e => cases h
    case bothEmpty m y =>
      exact ih _ _ _ h (by simpa [addMonthYear] using hbase)
    case badAmount e => cases h
    case txRow m y t0 =>
      refine ih _ _ _ h ?_
      intro t ht
      rcases (by simpa [addMonthYear] using ht :
          t ∈ acc.transactions ∨ t = t0) with h1 | rfl
      · exact hbase t h1
      · exact processRow_txRow_sign _ _ _ _ _ _ hr
    case checkRow m y c =>
      exact ih _ _ _ h (by simpa [addMonthYear] using hbase)

/-- Every transaction of a successful parse satisfies the Reconciler sign
facts. -/
theorem parse_txs_sign (sel : String) (y : Int)
    (mappings : List (String × MappingEntry)) (csv : String) :
    ∀ t ∈ (parseAndValidateCSV sel y mappings csv).txList, reconcilerSignOk t := by
  intro t hmem
  simp only [parseAndValidateCSV] at hmem
  repeat' split at hmem
  all_goals simp only [ParseResult.txList] at hmem
  any_goals cases hmem
  exact processRows_txs_sign mappings _ _ _ _ (by assumption)
    (by intro u hu; cases hu) t hmem

/-- Concrete CSV for the C1 counterexample: a negative credit and a zero
debit. -/
def c1csv : String :=
  "שנה,חודש,פריט,חובה,זכות\n2025,ינואר,אלף,,-50\n2025,ינואר,בית,0,"

/-- C1 counterexample: the Reconciler accepts a row with credit `-50` as an
income transaction with amount `-50 < 0` (falsifying `amount < 0 → expense`
and `income → amount ≥ 0`), and a row with debit `0` as an expense
transaction with amount `0` (falsifying `expense → amount < 0`). -/
theorem c1_counterexample :
    ((parseAndValidateCSV "01" 2025 [] c1csv).txList).map (fun t => (t.type, t.amount))
      = [("income", -50), ("expense", 0)] ∧
    ((-50 : ℚ) < 0 ∧ "income" ≠ "expense") ∧ ¬ ((0 : ℚ) < 0) :=
  ⟨by with_unfolding_all rfl, ⟨by norm_num, by decide⟩, by norm_num⟩

/-- The `transactionData` object always satisfies the direct-entry sign
facts. -/
theorem transactionData_signOk (s : BudgetState) (form : TransactionFormData)
    (cd : Option (String × String)) (m : Int) :
    directPathSignOk (transactionData s form cd m) := by
  unfold directPathSignOk transactionData
  by_cases htyp : (form.type == "expense") = true
  · have htyp' : form.type = "expense" := by simpa using htyp
    simp only [htyp, if_true]
    refine ⟨fun _ => htyp', fun _ => neg_nonpos.mpr (abs_nonneg _), fun hit => ?_⟩
    exfalso
    rcases hit with hh | hh <;> rw [htyp'] at hh <;> exact absurd hh (by decide)
  · have hb : (form.type == "expense") = false := by simpa using htyp
    have htyp' : ¬ form.type = "expense" := by simpa using htyp
    simp only [hb, Bool.false_eq_true, if_false]
    exact ⟨fun hneg => absurd hneg (not_lt.mpr (abs_nonneg _)),
      fun hexp => absurd hexp htyp', fun _ => abs_nonneg _⟩

/-- C1 amended: on the direct-entry path `amount < 0` implies type
`expense`, `expense` implies `amount ≤ 0`, and `income`/`transfer` imply
`amount ≥ 0` (the amount is `±|input|`, so strictness fails only at 0); on
the Reconciler path every accepted transaction has type `income` or
`expense` and `expense` implies `amount ≤ 0`, while an income transaction
carries the parsed credit unchanged, which may be negative. -/
theorem c1_amended_sign_invariant :
    (∀ (s : BudgetState) (form : TransactionFormData)
        (cd : Option (String × String)) (t : Transaction) (s' : BudgetState),
      addTransaction s form cd = .addedTx t s' → directPathSignOk t) ∧
    (∀ (sel : String) (y : Int) (mappings : List (String × MappingEntry))
        (csv : String) (t : Transaction),
      t ∈ (parseAndValidateCSV sel y mappings csv).txList → reconcilerSignOk t) := by
  constructor
  · intro s form cd t s' h
    simp only [addTransaction] at h
    repeat' split at h
    any_goals cases h
    all_goals first
      | (injection h with h1 h2
         exact h1 ▸ transactionData_signOk s form cd _)
      | exact transactionData_signOk s form cd _
  · exact fun sel y mappings csv t hmem => parse_txs_sign sel y mappings csv t hmem

/-! ## C7: the row dispatch rules -/

/-- Concrete CSV for the C7 counterexample: a data row whose debit and
credit columns are both non-empty. -/
def c7csv : String :=
  "שנה,חודש,פריט,חובה,זכות\n2025,ינואר,פריט,5,7"

/-- C7 counterexample: a row with debit `5` and credit `7` — both columns
non-empty — is not skipped: the credit column wins and the row becomes an
income transaction of amount `7`. -/
theorem c7_counterexample :
    rowField "2025,ינואר,פריט,5,7" 3 = "5" ∧
    rowField "2025,ינואר,פריט,5,7" 4 = "7" ∧
    ((parseAndValidateCSV "01" 2025 [] c7csv).txList).map
      (fun t => (t.type, t.amount)) = [("income", 7)] :=
  ⟨by with_unfolding_all rfl, by with_unfolding_all rfl,
   by with_unfolding_all rfl⟩

set_option maxHeartbeats 800000 in
/-- C7 amended: for a data row that survives the blank-line, field-count
and month checks, a non-empty credit column always wins and yields an
income row carrying the parsed credit (even when the debit is also
non-empty); an empty credit with a non-empty debit yields an expense row
with amount `-|debit|`; both columns empty is a silent skip; a non-numeric
winning column — the credit when it is non-empty, else the debit — aborts
with the bad-amount error. -/
theorem c7_amended_row_rules (mappings : List (String × MappingEntry))
    (i : Nat) (line month : String)
    (hne : (jsTrim line == "") = false)
    (hlen : ¬ (parseCSVLine (jsTrim line)).length < 5)
    (hm : monthMap (rowField line 1) = some month) :
    (∀ a : ℚ, parseFloatJS (rowField line 4) = some a → rowField line 4 ≠ "" →
      processRow mappings i line =
        buildRow mappings month (rowField line 0) (rowField line 1)
          (stripQuotesAll (rowField line 2)) a "income") ∧
    (∀ a : ℚ, parseFloatJS (rowField line 3) = some a → rowField line 4 = "" →
      rowField line 3 ≠ "" →
      processRow mappings i line =
        buildRow mappings month (rowField line 0) (rowField line 1)
          (stripQuotesAll (rowField line 2)) (-|a|) "expense") ∧
    (rowField line 4 = "" → rowField line 3 = "" →
      processRow mappings i line = .bothEmpty month (rowField line 0)) ∧
    (parseFloatJS (rowField line 4) = none → rowField line 4 ≠ "" →
      processRow mappings i line = .badAmount (badAmountMsg i
        (if rowField line 3 != "" then rowField line 3 else rowField line 4))) ∧
    (parseFloatJS (rowField line 3) = none → rowField line 4 = "" →
      rowField line 3 ≠ "" →
      processRow mappings i line = .badAmount (badAmountMsg i (rowField line 3))) := by
  simp only [rowField] at hm
  refine ⟨?_, ?_, ?_, ?_, ?_⟩
  · intro a hpa hc
    simp only [rowField] at hpa hc
    have hc' : (jsTrim ((parseCSVLine (jsTrim line)).getD 4 "") != "") = true :=
      bne_iff_ne.mpr hc
    simp only [processRow]
    rw [if_neg (by rw [hne]; exact Bool.false_ne_true), if_neg hlen]
    simp only [hm]
    rw [if_pos hc'] <;> simp only [hpa, rowField]
  · intro a hpa hc hd
    simp only [rowField] at hpa hc hd
    have hc0 : (jsTrim ((parseCSVLine (jsTrim line)).getD 4 "") != "") = false := by
      simp only [hc, bne_self_eq_false]
    have hd' : (jsTrim ((parseCSVLine (jsTrim line)).getD 3 "") != "") = true :=
      bne_iff_ne.mpr hd
    simp only [processRow]
    rw [if_neg (by rw [hne]; exact Bool.false_ne_true), if_neg hlen]
    simp only [hm]
    rw [if_neg (by rw [hc0]; exact Bool.false_ne_true), if_pos hd'] <;> simp only [hpa, rowField]
  · intro hc hd
    simp only [rowField] at hc hd
    have hc0 : (jsTrim ((parseCSVLine (jsTrim line)).getD 4 "") != "") = false := by
      simp only [hc, bne_self_eq_false]
    have hd0 : (jsTrim ((parseCSVLine (jsTrim line)).getD 3 "") != "") = false := by
      simp only [hd, bne_self_eq_false]
    simp only [processRow]
    rw [if_neg (by rw [hne]; exact Bool.false_ne_true), if_neg hlen]
    simp only [hm]
    rw [if_neg (by rw [hc0]; exact Bool.false_ne_true), if_neg (by rw [hd0]; exact Bool.false_ne_true)] <;> simp only [rowField]
  · intro hpn hc
    simp only [rowField] at hpn hc
    have hc' : (jsTrim ((parseCSVLine (jsTrim line)).getD 4 "") != "") = true :=
      bne_iff_ne.mpr hc
    simp only [processRow]
    rw [if_neg (by rw [hne]; exact Bool.false_ne_true), if_neg hlen]
    simp only [hm]
    rw [if_pos hc'] <;> simp only [hpn, rowField]
  · intro hpn hc hd
    simp only [rowField] at hpn hc hd
    have hc0 : (jsTrim ((parseCSVLine (jsTrim line)).getD 4 "") != "") = false := by
      simp only [hc, bne_self_eq_false]
    have hd' : (jsTrim ((parseCSVLine (jsTrim line)).getD 3 "") != "") = true :=
      bne_iff_ne.mpr hd
    simp only [processRow]
    rw [if_neg (by rw [hne]; exact Bool.false_ne_true), if_neg hlen]
    simp only [hm]
    rw [if_neg (by rw [hc0]; exact Bool.false_ne_true), if_pos hd']
    simp only [hpn]
    rw [if_pos hd'] <;> simp only [rowField]

/-- C7 witness: the income rule applied to the concrete data row
`2025,ינואר,אלף,,7`. -/
theorem c7_amended_row_rules_witness :
    processRow [] 3 "2025,ינואר,אלף,,7" =
      buildRow [] "01" "2025" "ינואר" "אלף" 7 "income" := by
  have h := (c7_amended_row_rules [] 3 "2025,ינואר,אלף,,7" "01"
      (by with_unfolding_all rfl)
      (of_decide_eq_false (by with_unfolding_all rfl))
      (by with_unfolding_all rfl)).1 7
      (by with_unfolding_all rfl)
      (of_decide_eq_true (by with_unfolding_all rfl))
  rw [h]
  with_unfolding_all rfl

/-! ## C9: the sign of imported check items -/

/-- Concrete CSV for the C9 counterexample: a `(שיק)` placeholder row whose
amount comes from the credit column. -/
def c9csv : String :=
  "שנה,חודש,פריט,חובה,זכות\n2025,ינואר,(שיק),,100"

/-- C9 counterexample: a credit-side `(שיק)` row of `100` is diverted into
the imported check items with amount `100 > 0`: not every imported check
item has a negative amount. -/
theorem c9_counterexample :
    ((parseAndValidateCSV "01" 2025 [] c9csv).ckList).map
      (fun c => c.amount) = [100] ∧ ¬ ((100 : ℚ) < 0) :=
  ⟨by with_unfolding_all rfl, by norm_num⟩

/-- The special check item of the manual path is never positive: its
amount is `-|input|`. -/
theorem specialCheckItem_amount (s : BudgetState) (form : TransactionFormData)
    (m : Int) : (specialCheckItem s form m).amount ≤ 0 :=
  neg_nonpos.mpr (abs_nonneg _)

set_option maxHeartbeats 800000 in
/-- C9 amended: a check item entered through the manual special-check path
has amount `≤ 0`, and a check item diverted from a CSV row whose credit
column is empty (a debit-side row) has amount `≤ 0`; a credit-side `(שיק)`
row instead carries the parsed credit unchanged, which may be positive. -/
theorem c9_amended_check_sign :
    (∀ (s : BudgetState) (form : TransactionFormData)
        (cd : Option (String × String)) (c : CheckItem) (s' : BudgetState),
      addTransaction s form cd = .addedCheck c s' → c.amount ≤ 0) ∧
    (∀ (mappings : List (String × MappingEntry)) (i : Nat)
        (line m y : String) (c : CheckItem),
      rowField line 4 = "" →
      processRow mappings i line = .checkRow m y c → c.amount ≤ 0) := by
  constructor
  · intro s form cd c s' h
    simp only [addTransaction] at h
    repeat' split at h
    any_goals cases h
    all_goals first
      | (injection h with h1 h2
         exact h1 ▸ specialCheckItem_amount s form _)
      | exact specialCheckItem_amount s form _
  · intro mappings i line m y c hc h
    rcases processRow_spec mappings i line with hs | ⟨mn, hs⟩ | ⟨raw, hs⟩ |
      ⟨m', y', hs⟩ | ⟨m', y', mn, item, a, type, hty, hs⟩
    case _ => rw [hs] at h; cases h
    case _ => rw [hs] at h; cases h
    case _ => rw [hs] at h; cases h
    case _ => rw [hs] at h; cases h
    rw [hs] at h
    have hamt := buildRow_checkRow _ _ _ _ _ _ _ _ _ _ h
    rcases hty with ⟨-, hcred⟩ | ⟨-, ha⟩
    · exact absurd hc hcred
    · rw [hamt]; exact ha

/-! ## C10: short rows are skipped -/

/-- C10: a data row that parses into fewer than five fields is skipped
silently: `processRow` classes it a short row, and the row loop passes the
accumulator — transactions, check items, recorded months and years —
through unchanged, producing no error. -/
theorem c10_short_rows_skipped (mappings : List (String × MappingEntry))
    (line : String) (rest : List String) (i : Nat) (acc : RowAcc)
    (h : (parseCSVLine (jsTrim line)).length < 5) :
    processRow mappings i line = .shortRow ∧
    processRows mappings (line :: rest) i acc =
      processRows mappings rest (i + 1) acc := by
  have hrow : processRow mappings i line = .shortRow := by
    simp only [processRow]
    rw [if_pos h]
    split <;> rfl
  exact ⟨hrow, by simp only [processRows, hrow]⟩

/-- C10 witness: the two-field row `אלף,בית` is skipped by the loop. -/
theorem c10_short_rows_skipped_witness :
    processRow [] 0 "אלף,בית" = .shortRow ∧
    processRows [] ["אלף,בית"] 0 ⟨[], [], [], []⟩ =
      processRows [] [] 1 ⟨[], [], [], []⟩ :=
  c10_short_rows_skipped [] "אלף,בית" [] 0 ⟨[], [], [], []⟩
    (of_decide_eq_true (by with_unfolding_all rfl))

end Budget
